import Mathlib

/-!
Verification development for the zorya proposal-approval subsystem.

The definitions below are a shallow embedding of the TypeScript sources:
* `src/calendar-approval.ts` — OAuth credential management and the calendar
  write client (`getAccessToken`, `refreshToken`, `createCalendarEvent`,
  `parseApiError`);
* `src/channels/telegram.ts` — the approval channel adapter
  (`sendEventProposal`, the `callback_query:data` handler);
* the proposal store and the callback-router dispatch, which are not among
  the sources, are modelled from the specification where indicated.

Effects are made explicit: the filesystem, the clock and the two HTTP
endpoints live in a state record `St`; each network call consumes the next
queued response and appends the request it sent to a log, so theorems can
speak about how many calls were made and with which payloads.  JavaScript
strings are Lean `String`s; a missing or `undefined` string field is
modelled as `""` (both are falsy in the source's truthiness tests); a date
string's `getTime()` value is supplied by a `DateOps` oracle, `none`
standing for `NaN`.
-/

namespace Zorya

/-- Constant `EXPIRY_BUFFER_MS = 5 * 60 * 1000` from calendar-approval.ts. -/
def EXPIRY_BUFFER_MS : Int := 5 * 60 * 1000

/-- Constant `TIMEZONE` from config.ts (not among the sources); its value is
documented as Europe/Warsaw.  No claim depends on the value. -/
def TIMEZONE : String := "Europe/Warsaw"

/-- The `OAuthCredentials` record of calendar-approval.ts (the JSON parse of
`~/.google-oauth/oauth.json`).  A missing or empty string field is `""`. -/
structure OAuthCredentials where
  client_id : String
  client_secret : String
  refresh_token : String
  access_token : String
  token_expiry : String
deriving Repr, DecidableEq

/-- The `EventProposal` fields used by calendar-approval.ts and
channels/telegram.ts (the row of the `event_proposals` table). -/
structure EventProposal where
  id : String
  title : String
  start_time : String
  end_time : String
  attendees : List String
  description : String
  location : String
deriving Repr, DecidableEq

/-- One `{ email }` entry of the external payload's attendees array. -/
structure Attendee where
  email : String
deriving Repr, DecidableEq

/-- The external event payload built by `createCalendarEvent`:
`summary`, optional `description`/`location` (dropped via `|| undefined`
when empty), start/end with the configured time zone, and an optional
attendees array. -/
structure EventPayload where
  summary : String
  description : Option String
  location : Option String
  start_dateTime : String
  end_dateTime : String
  timeZone : String
  attendees : Option (List Attendee)
deriving Repr, DecidableEq

/-- The fields of a parsed token-endpoint response body that
`refreshToken` reads: `error_description`, `error` (either may be absent
or empty, both modelled `""`), `access_token` and `expires_in`. -/
structure ParsedTokenBody where
  error_description : String
  error : String
  access_token : String
  expires_in : Int
deriving Repr, DecidableEq

/-- A token-endpoint HTTP response: status, raw body, and the result of
`JSON.parse` on the body (`none` when parsing throws). -/
structure RefreshResponse where
  status : Nat
  raw : String
  parsed : Option ParsedTokenBody
deriving Repr, DecidableEq

/-- The fields of a parsed calendar-API response body that
`createCalendarEvent` and `parseApiError` read: `error?.message`,
`error_description`, `id`, `htmlLink` (absent modelled `""`). -/
structure ParsedApiBody where
  errorMessage : String
  error_description : String
  id : String
  htmlLink : String
deriving Repr, DecidableEq

/-- A calendar-API HTTP response: status, raw body, parsed body. -/
structure CreateResponse where
  status : Nat
  raw : String
  parsed : Option ParsedApiBody
deriving Repr, DecidableEq

/-- The form body POSTed to the token endpoint by `refreshToken`. -/
structure TokenRequest where
  client_id : String
  client_secret : String
  refresh_token : String
  grant_type : String
deriving Repr, DecidableEq

/-- An authenticated POST to the events-create endpoint: bearer token and
JSON payload. -/
structure CreateRequest where
  authToken : String
  payload : EventPayload
deriving Repr, DecidableEq

/-- The explicit effect state: the credential file (`none` = absent), the
current time in ms, the queued responses of the two endpoints, and the log
of requests actually sent to each. -/
structure St where
  file : Option OAuthCredentials
  now : Int
  refreshResponses : List RefreshResponse
  createResponses : List CreateResponse
  tokenRequests : List TokenRequest
  createRequests : List CreateRequest
deriving Repr, DecidableEq

/-- Date oracle: `parse s` is `new Date(s).getTime()` (`none` = `NaN`),
`iso t` is `new Date(t).toISOString()`. -/
structure DateOps where
  parse : String → Option Int
  iso : Int → String

/-- The errors thrown in calendar-approval.ts: missing credential file,
`Token refresh failed: …`, `Calendar API error status: …`, an uncaught
`JSON.parse` failure on a success body, and a network-level request
failure. -/
inductive CalError where
  | credentialsNotFound
  | tokenRefreshFailed (detail : String)
  | apiError (status : Nat) (detail : String)
  | jsonError
  | networkError
deriving Repr, DecidableEq

/-- Result record of a successful event creation: the external event id
and link. -/
structure CreateResult where
  eventId : String
  htmlLink : String
deriving Repr, DecidableEq

/-- One `httpsRequest` to the token endpoint: logs the request and
consumes the next queued response; an empty queue models a request
error. -/
def popRefresh (req : TokenRequest) (st : St) : Except CalError RefreshResponse × St :=
  match st.refreshResponses with
  | [] => (.error .networkError, { st with tokenRequests := st.tokenRequests ++ [req] })
  | r :: rest =>
    (.ok r, { st with refreshResponses := rest, tokenRequests := st.tokenRequests ++ [req] })

/-- One `httpsRequest` to the events-create endpoint: logs the request and
consumes the next queued response. -/
def popCreate (req : CreateRequest) (st : St) : Except CalError CreateResponse × St :=
  match st.createResponses with
  | [] => (.error .networkError, { st with createRequests := st.createRequests ++ [req] })
  | r :: rest =>
    (.ok r, { st with createResponses := rest, createRequests := st.createRequests ++ [req] })

/-- The error detail computed by `refreshToken` on a non-200 status:
`parsed.error_description || parsed.error || res.body`, the raw body when
parsing throws (`||` treats the empty string as falsy). -/
def refreshDetail (r : RefreshResponse) : String :=
  match r.parsed with
  | none => r.raw
  | some p =>
    if p.error_description != "" then p.error_description
    else if p.error != "" then p.error
    else r.raw

/-- Function `refreshToken` from calendar-approval.ts: POSTs the client id, client
secret and refresh token with `grant_type=refresh_token`; on a non-200
status throws `Token refresh failed` with `refreshDetail`; on 200 returns
the new access token and an ISO expiry computed from `expires_in`. -/
def refreshToken (d : DateOps) (creds : OAuthCredentials) (st : St) :
    Except CalError (String × String) × St :=
  let req : TokenRequest :=
    ⟨creds.client_id, creds.client_secret, creds.refresh_token, "refresh_token"⟩
  match popRefresh req st with
  | (.error e, st1) => (.error e, st1)
  | (.ok r, st1) =>
    if r.status != 200 then
      (.error (.tokenRefreshFailed (refreshDetail r)), st1)
    else
      match r.parsed with
      | none => (.error .jsonError, st1)
      | some p => (.ok (p.access_token, d.iso (st1.now + p.expires_in * 1000)), st1)

/-- The local validity check of `getAccessToken`:
`Date.now() < new Date(token_expiry).getTime() - EXPIRY_BUFFER_MS`
(false when `getTime()` is `NaN`). -/
def tokenStillValid (d : DateOps) (now : Int) (expiryStr : String) : Bool :=
  match d.parse expiryStr with
  | some e => decide (now < e - EXPIRY_BUFFER_MS)
  | none => false

/-- Function `getAccessToken` from calendar-approval.ts: fails if the credential
file is absent; returns the stored token when `access_token` and
`token_expiry` are truthy and the expiry is more than the buffer in the
future; otherwise refreshes, writes the merged record back to the file
(spread of the old record with the fresh `access_token`/`token_expiry`),
and returns the fresh token. -/
def getAccessToken (d : DateOps) (st : St) : Except CalError String × St :=
  match st.file with
  | none => (.error .credentialsNotFound, st)
  | some creds =>
    if creds.access_token != "" && creds.token_expiry != ""
        && tokenStillValid d st.now creds.token_expiry then
      (.ok creds.access_token, st)
    else
      match refreshToken d creds st with
      | (.error e, st1) => (.error e, st1)
      | (.ok (tok, exp), st1) =>
        let updated := { creds with access_token := tok, token_expiry := exp }
        (.ok tok, { st1 with file := some updated })

/-- The payload construction of `createCalendarEvent`: `|| undefined`
drops an empty description/location; the attendees field is set only when
the list is non-empty, to `attendees.map(email => ({ email }))`. -/
def buildEvent (p : EventProposal) : EventPayload :=
  { summary := p.title
  , description := if p.description = "" then none else some p.description
  , location := if p.location = "" then none else some p.location
  , start_dateTime := p.start_time
  , end_dateTime := p.end_time
  , timeZone := TIMEZONE
  , attendees :=
      if p.attendees.length > 0 then
        some (p.attendees.map (fun email => ⟨email⟩))
      else none }

/-- Function `parseApiError` from calendar-approval.ts:
`parsed.error?.message || parsed.error_description || body`, the raw body
when `JSON.parse` throws. -/
def parseApiError (r : CreateResponse) : String :=
  match r.parsed with
  | none => r.raw
  | some p =>
    if p.errorMessage != "" then p.errorMessage
    else if p.error_description != "" then p.error_description
    else r.raw

/-- Function `createCalendarEvent` from calendar-approval.ts: obtains a token,
POSTs the built payload; on 401 calls `getAccessToken` again and retries
the same payload once, surfacing a non-200 retry status as an API error;
any other non-200 first status is an API error with no retry; a 200 body
yields `{ eventId, htmlLink }`. -/
def createCalendarEvent (d : DateOps) (p : EventProposal) (st : St) :
    Except CalError CreateResult × St :=
  match getAccessToken d st with
  | (.error e, st1) => (.error e, st1)
  | (.ok token, st1) =>
    let event := buildEvent p
    match popCreate ⟨token, event⟩ st1 with
    | (.error e, st2) => (.error e, st2)
    | (.ok res, st2) =>
      if res.status == 401 then
        match getAccessToken d st2 with
        | (.error e, st3) => (.error e, st3)
        | (.ok freshToken, st3) =>
          match popCreate ⟨freshToken, event⟩ st3 with
          | (.error e, st4) => (.error e, st4)
          | (.ok retryRes, st4) =>
            if retryRes.status != 200 then
              (.error (.apiError retryRes.status (parseApiError retryRes)), st4)
            else
              match retryRes.parsed with
              | none => (.error .jsonError, st4)
              | some body => (.ok ⟨body.id, body.htmlLink⟩, st4)
      else if res.status != 200 then
        (.error (.apiError res.status (parseApiError res)), st2)
      else
        match res.parsed with
        | none => (.error .jsonError, st2)
        | some body => (.ok ⟨body.id, body.htmlLink⟩, st2)

/-! ## Approval channel adapter — src/channels/telegram.ts -/

/-- One inline-keyboard button: visible label and callback data. -/
structure InlineButton where
  label : String
  data : String
deriving Repr, DecidableEq

/-- The Bot API surface `sendEventProposal` uses, as oracles: the two
locale formatters of the summary line and `bot.api.sendMessage`, which
returns the new message id or `none` when the call throws. -/
structure TelegramApi where
  fmtDate : String → String
  fmtTime : String → String
  sendMessage : String → String → List InlineButton → Option Nat

/-- JavaScript `s.startsWith(p)`, over the character lists. -/
def strStartsWith (s p : String) : Bool :=
  s.data.take p.data.length == p.data

/-- JavaScript `s.split(sep)` for a one-character separator, over the
character lists: `""` splits to `[""]`, separators at the ends produce
empty components. -/
def charSplit (sep : Char) : List Char → List (List Char)
  | [] => [[]]
  | c :: rest =>
    let r := charSplit sep rest
    if c = sep then [] :: r
    else
      match r with
      | [] => [[c]]
      | g :: gs => (c :: g) :: gs

/-- JavaScript `s.split(sep)` as strings. -/
def strSplit (s : String) (sep : Char) : List String :=
  (charSplit sep s.data).map String.mk

/-- The jid normalization `jid.replace(/^tg:/, '')`. -/
def stripTg (jid : String) : String :=
  if strStartsWith jid "tg:" then String.mk (jid.data.drop 3) else jid

/-- The message text built by `sendEventProposal`: title and formatted
range, then attendees, location and description when present. -/
def proposalText (fmtDate fmtTime : String → String) (p : EventProposal) : String :=
  let base := "📅 *" ++ p.title ++ "*\n" ++ fmtDate p.start_time ++ ", "
      ++ fmtTime p.start_time ++ " – " ++ fmtTime p.end_time
  let t1 :=
    if p.attendees.length > 0 then
      base ++ "\nAttendees: " ++ String.intercalate ", " p.attendees
    else base
  let t2 := if p.location != "" then t1 ++ "\nLocation: " ++ p.location else t1
  if p.description != "" then t2 ++ "\n\n" ++ p.description else t2

/-- The inline keyboard built by `sendEventProposal`: the Create button
carries `event:approve:<id>`, the Skip button `event:skip:<id>`. -/
def proposalKeyboard (p : EventProposal) : List InlineButton :=
  [⟨"✅ Create", "event:approve:" ++ p.id⟩, ⟨"❌ Skip", "event:skip:" ++ p.id⟩]

/-- Method `sendEventProposal` from channels/telegram.ts: returns `undefined`
when the bot is not initialized; otherwise sends the text with the
keyboard and returns the message id as a string, or `undefined` when the
send throws (the whole body is wrapped in try/catch).  The source method
performs no proposal-store access; the store argument is passed through
unchanged to make that frame explicit. -/
def sendEventProposal {Store : Type} (bot : Option TelegramApi) (jid : String)
    (p : EventProposal) (store : Store) : Option String × Store :=
  match bot with
  | none => (none, store)
  | some api =>
    let numericId := stripTg jid
    let text := proposalText api.fmtDate api.fmtTime p
    match api.sendMessage numericId text (proposalKeyboard p) with
    | some msgId => (some (toString msgId), store)
    | none => (none, store)

/-- The `callback_query:data` handler registered in `connect`: data not
starting with `event:` is ignored (`none`); otherwise
`data.split(':')` is destructured as `[, action, proposalId]` and the
pair is forwarded to `onEventCallback` (a missing component is modelled
`""`). -/
def handleCallbackData (data : String) : Option (String × String) :=
  if !strStartsWith data "event:" then none
  else
    let parts := strSplit data ':'
    some (parts.getD 1 "", parts.getD 2 "")

/-! ## Proposal store and callback dispatch — modelled from the spec -/

/-- The four proposal statuses. -/
inductive PStatus where
  | pending
  | approved
  | rejected
  | expired
deriving Repr, DecidableEq

/-- Keyed status storage, an association list proposal id → status. -/
abbrev StoreMap : Type := List (String × PStatus)

/-- Status of a proposal id in the store (`none` = not found). -/
def lookupStatus : StoreMap → String → Option PStatus
  | [], _ => none
  | (k, v) :: rest, id => if k = id then some v else lookupStatus rest id

/-- Replace the status of the first row with the given id. -/
def setStatus : StoreMap → String → PStatus → StoreMap
  | [], _, _ => []
  | (k, v) :: rest, id, st =>
    if k = id then (k, st) :: rest else (k, v) :: setStatus rest id st

/-- Modelled from the spec: the proposal store lives in `src/db.ts`, which
is not among the sources.  Per §4.2, `transition(id, expected, new)` is an
atomic compare-and-set: it succeeds only if the stored status equals
`expected` at the moment of the update, otherwise fails with a conflict
and changes nothing. -/
def transition (id : String) (expected newStatus : PStatus) (s : StoreMap) :
    Bool × StoreMap :=
  match lookupStatus s id with
  | some cur => if cur = expected then (true, setStatus s id newStatus) else (false, s)
  | none => (false, s)

/-- A race of callers on one id, linearized: per §5 the compare-and-set
transitions are atomic and linearizable, so a concurrent race is modelled
as the calls executing in some sequential order; `targets` lists, in that
order, the status each caller tries to move the id to from `pending`.
Returns the number of successful calls and the final store. -/
def raceOutOfPending (id : String) (targets : List PStatus) (s : StoreMap) :
    Nat × StoreMap :=
  match targets with
  | [] => (0, s)
  | t :: rest =>
    let r1 := transition id .pending t s
    let r2 := raceOutOfPending id rest r1.2
    ((if r1.1 then 1 else 0) + r2.1, r2.2)

/-- Modelled from the spec: the `onEventCallback` handler is wired in
`src/index.ts`, which is not among the sources; modelled from §4.6 and the
design document's callback-handler logic — a non-`pending` status means no
change; an overdue proposal (older than the 24 h window) transitions to
`expired` before the tag is examined; `approve` re-validates the start
time (`expired` when passed) and transitions to `approved` exactly when
the calendar write succeeds, a failed write leaving the proposal
`pending`; `skip` transitions to `rejected`; any other tag matches no
branch.  `startInFuture` abstracts the start-time re-validation and
`createOk` the calendar-write outcome.  Returns the status transition
performed, if any. -/
def callbackTransition (status : PStatus) (overdue : Bool) (action : String)
    (startInFuture : Bool) (createOk : Bool) : Option PStatus :=
  if status != .pending then none
  else if overdue then some .expired
  else if action == "approve" then
    if !startInFuture then some .expired
    else if createOk then some .approved else none
  else if action == "skip" then some .rejected
  else none

/-! ## Helper lemmas -/

/-- The token request `refreshToken` posts for a given credential record. -/
def tokenRequestOf (creds : OAuthCredentials) : TokenRequest :=
  ⟨creds.client_id, creds.client_secret, creds.refresh_token, "refresh_token"⟩

lemma refreshToken_cons (d : DateOps) (creds : OAuthCredentials) (st : St)
    (r : RefreshResponse) (rest : List RefreshResponse)
    (h : st.refreshResponses = r :: rest) :
    refreshToken d creds st =
      (let st1 : St :=
         { st with
           refreshResponses := rest,
           tokenRequests := st.tokenRequests ++ [tokenRequestOf creds] }
       if r.status != 200 then (.error (.tokenRefreshFailed (refreshDetail r)), st1)
       else
         match r.parsed with
         | none => (.error .jsonError, st1)
         | some p => (.ok (p.access_token, d.iso (st.now + p.expires_in * 1000)), st1)) := by
  unfold refreshToken popRefresh tokenRequestOf
  rw [h]

lemma getAccessToken_refresh_branch (d : DateOps) (st : St) (creds : OAuthCredentials)
    (hf : st.file = some creds)
    (hb : (creds.access_token != "" && creds.token_expiry != ""
      && tokenStillValid d st.now creds.token_expiry) = false) :
    getAccessToken d st =
      (match refreshToken d creds st with
       | (.error e, st1) => (.error e, st1)
       | (.ok (tok, exp), st1) =>
         (.ok tok, { st1 with
            file := some { creds with access_token := tok, token_expiry := exp } })) := by
  unfold getAccessToken
  rw [hf]
  simp only [hb, Bool.false_eq_true, if_false]

lemma getAccessToken_refresh_ok (d : DateOps) (st : St) (creds : OAuthCredentials)
    (r : RefreshResponse) (rest : List RefreshResponse) (pb : ParsedTokenBody)
    (hf : st.file = some creds)
    (hb : (creds.access_token != "" && creds.token_expiry != ""
      && tokenStillValid d st.now creds.token_expiry) = false)
    (hr : st.refreshResponses = r :: rest)
    (hs : r.status = 200) (hp : r.parsed = some pb) :
    getAccessToken d st =
      (.ok pb.access_token,
       { st with
         file :=
           some
             { creds with
               access_token := pb.access_token,
               token_expiry := d.iso (st.now + pb.expires_in * 1000) },
         refreshResponses := rest,
         tokenRequests := st.tokenRequests ++ [tokenRequestOf creds] }) := by
  rw [getAccessToken_refresh_branch d st creds hf hb,
    refreshToken_cons d creds st r rest hr]
  simp only [hs, hp]
  rfl

/-- C5: an empty attendee list omits the attendees field of the external
payload entirely; a non-empty list yields exactly one `{ email }` entry
per attendee, in order. -/
theorem buildEvent_attendees (p : EventProposal) :
    (p.attendees = [] → (buildEvent p).attendees = none) ∧
    (p.attendees ≠ [] →
      (buildEvent p).attendees = some (p.attendees.map (fun email => ⟨email⟩))) := by
  constructor
  · intro h
    simp [buildEvent, h]
  · intro h
    simp [buildEvent, List.length_pos.mpr h]

/-- Witness for C5 at concrete proposals with empty and one-element
attendee lists. -/
theorem buildEvent_attendees_witness :
    (buildEvent ⟨"p1", "T", "s", "e", [], "", ""⟩).attendees = none ∧
    (buildEvent ⟨"p1", "T", "s", "e", ["alice@example.com"], "", ""⟩).attendees =
      some [⟨"alice@example.com"⟩] := by
  refine ⟨(buildEvent_attendees _).1 rfl, ?_⟩
  have h := (buildEvent_attendees ⟨"p1", "T", "s", "e", ["alice@example.com"], "", ""⟩).2
    (by simp)
  simpa using h

lemma refreshToken_nil (d : DateOps) (creds : OAuthCredentials) (st : St)
    (h : st.refreshResponses = []) :
    refreshToken d creds st =
      (.error .networkError,
       { st with tokenRequests := st.tokenRequests ++ [tokenRequestOf creds] }) := by
  unfold refreshToken popRefresh tokenRequestOf
  rw [h]

lemma getAccessToken_tokenRequests_after_refresh (d : DateOps) (st : St)
    (creds : OAuthCredentials) (hf : st.file = some creds)
    (hb : (creds.access_token != "" && creds.token_expiry != ""
      && tokenStillValid d st.now creds.token_expiry) = false) :
    (getAccessToken d st).2.tokenRequests = st.tokenRequests ++ [tokenRequestOf creds] := by
  rw [getAccessToken_refresh_branch d st creds hf hb]
  cases hr : st.refreshResponses with
  | nil => rw [refreshToken_nil d creds st hr]
  | cons r rest =>
    rw [refreshToken_cons d creds st r rest hr]
    cases hs : (r.status != 200) with
    | true =>
      simp only [hs, if_true]
    | false =>
      simp only [hs, Bool.false_eq_true, if_false]
      cases r.parsed with
      | none => rfl
      | some pb => rfl

/-- A sample date oracle: every string parses to a far-future instant,
`iso` renders the millisecond count. -/
def dFar : DateOps :=
  ⟨fun _ => some 100000000000, fun t => "iso-" ++ toString t⟩

/-- Sample record with an empty stored access token. -/
def credsEmptyTok : OAuthCredentials := ⟨"cid", "csec", "rtok", "", "far"⟩

/-- Sample record with a stored access token and far-future expiry. -/
def credsValid : OAuthCredentials := ⟨"cid", "csec", "rtok", "tok0", "far"⟩

/-- Sample successful token-endpoint response. -/
def refreshOk : RefreshResponse := ⟨200, "", some ⟨"", "", "newtok", 3600⟩⟩

/-- Sample rejected token-endpoint response. -/
def refreshBad : RefreshResponse :=
  ⟨400, "raw", some ⟨"Token has been revoked.", "invalid_grant", "", 0⟩⟩

/-- State with a valid cached token and no queued responses. -/
def stValid : St := ⟨some credsValid, 0, [], [], [], []⟩

/-- State with an empty cached token and one successful refresh queued. -/
def stEmptyTok : St := ⟨some credsEmptyTok, 0, [refreshOk], [], [], []⟩

/-- State with no credential file. -/
def stNoFile : St := ⟨none, 0, [], [], [], []⟩

/-- State with an empty cached token and one rejected refresh queued. -/
def stBadRefresh : St := ⟨some credsEmptyTok, 0, [refreshBad], [], [], []⟩

/-- C3 counterexample: a stored record whose expiry parses to far more
than five minutes past `now = 0` but whose `access_token` is empty.  The
claim as stated requires the stored (empty) token back with no network
call; `getAccessToken` instead posts a refresh to the token endpoint and
returns the fresh token. -/
theorem getAccessToken_emptyToken_refreshes :
    (dFar.parse "far" = some 100000000000 ∧
      (0 : Int) < 100000000000 - EXPIRY_BUFFER_MS) ∧
    (getAccessToken dFar
        ⟨some ⟨"cid", "csec", "rtok", "", "far"⟩, 0,
         [⟨200, "", some ⟨"", "", "newtok", 3600⟩⟩], [], [], []⟩).1 = .ok "newtok" ∧
    (getAccessToken dFar
        ⟨some ⟨"cid", "csec", "rtok", "", "far"⟩, 0,
         [⟨200, "", some ⟨"", "", "newtok", 3600⟩⟩], [], [], []⟩).2.tokenRequests =
      [⟨"cid", "csec", "rtok", "refresh_token"⟩] :=
  ⟨⟨rfl, by decide⟩, rfl, rfl⟩

/-- C3 (amended): for a stored record whose access token and expiry are
non-empty and whose expiry parses to more than five minutes in the
future, `getAccessToken` returns the stored token with the state — hence
file and request logs — untouched; otherwise it refreshes against the
token endpoint and the returned state already holds the persisted merged
record. -/
theorem getAccessToken_validity_check (d : DateOps) (st : St) (creds : OAuthCredentials)
    (hf : st.file = some creds) :
    (creds.access_token ≠ "" → creds.token_expiry ≠ "" →
      tokenStillValid d st.now creds.token_expiry = true →
      getAccessToken d st = (.ok creds.access_token, st)) ∧
    (∀ r rest pb,
      (creds.access_token != "" && creds.token_expiry != ""
        && tokenStillValid d st.now creds.token_expiry) = false →
      st.refreshResponses = r :: rest → r.status = 200 → r.parsed = some pb →
      getAccessToken d st =
        (.ok pb.access_token,
         { st with
           file :=
             some
               { creds with
                 access_token := pb.access_token,
                 token_expiry := d.iso (st.now + pb.expires_in * 1000) },
           refreshResponses := rest,
           tokenRequests := st.tokenRequests ++ [tokenRequestOf creds] })) := by
  constructor
  · intro h1 h2 h3
    have hc : (creds.access_token != "" && creds.token_expiry != ""
        && tokenStillValid d st.now creds.token_expiry) = true := by
      simp [h1, h2, h3]
    unfold getAccessToken
    rw [hf]
    simp only [hc, if_true]
  · intro r rest pb hb hr hs hp
    exact getAccessToken_refresh_ok d st creds r rest pb hf hb hr hs hp

/-- Witness for C3 (amended): a still-valid record is returned unchanged
with no request logged; an empty-token record is refreshed and the merged
record persisted. -/
theorem getAccessToken_validity_check_witness :
    getAccessToken dFar stValid = (.ok "tok0", stValid) ∧
    getAccessToken dFar stEmptyTok =
      (.ok "newtok",
       ⟨some ⟨"cid", "csec", "rtok", "newtok", "iso-3600000"⟩, 0, [], [],
        [⟨"cid", "csec", "rtok", "refresh_token"⟩], []⟩) := by
  constructor
  · exact (getAccessToken_validity_check dFar stValid credsValid rfl).1
      (by decide) (by decide) (by decide)
  · exact (getAccessToken_validity_check dFar stEmptyTok credsEmptyTok rfl).2
      refreshOk [] ⟨"", "", "newtok", 3600⟩ (by decide) rfl rfl rfl

/-- C6: the record persisted by a successful refresh differs from the
prior record only in the access token and its expiry, which are replaced
together from the provider response; client id, client secret and
refresh token are carried over, and the returned token is the persisted
one. -/
theorem getAccessToken_refresh_frame (d : DateOps) (st : St) (creds : OAuthCredentials)
    (r : RefreshResponse) (rest : List RefreshResponse) (pb : ParsedTokenBody)
    (hf : st.file = some creds)
    (hb : (creds.access_token != "" && creds.token_expiry != ""
      && tokenStillValid d st.now creds.token_expiry) = false)
    (hr : st.refreshResponses = r :: rest)
    (hs : r.status = 200) (hp : r.parsed = some pb) :
    ∃ creds',
      (getAccessToken d st).2.file = some creds' ∧
      creds'.client_id = creds.client_id ∧
      creds'.client_secret = creds.client_secret ∧
      creds'.refresh_token = creds.refresh_token ∧
      creds'.access_token = pb.access_token ∧
      creds'.token_expiry = d.iso (st.now + pb.expires_in * 1000) ∧
      (getAccessToken d st).1 = .ok creds'.access_token := by
  rw [getAccessToken_refresh_ok d st creds r rest pb hf hb hr hs hp]
  exact ⟨_, rfl, rfl, rfl, rfl, rfl, rfl, rfl⟩

/-- Witness for C6 at a concrete expired record and refresh response. -/
theorem getAccessToken_refresh_frame_witness :
    ∃ creds',
      (getAccessToken dFar stEmptyTok).2.file = some creds' ∧
      creds'.client_id = credsEmptyTok.client_id ∧
      creds'.client_secret = credsEmptyTok.client_secret ∧
      creds'.refresh_token = credsEmptyTok.refresh_token ∧
      creds'.access_token = "newtok" ∧
      creds'.token_expiry = dFar.iso (stEmptyTok.now + 3600 * 1000) ∧
      (getAccessToken dFar stEmptyTok).1 = .ok creds'.access_token :=
  getAccessToken_refresh_frame dFar stEmptyTok credsEmptyTok refreshOk []
    ⟨"", "", "newtok", 3600⟩ rfl (by decide) rfl rfl rfl

/-- C7: an absent credential file yields the configuration error with no
state change; a non-200 token-refresh response yields the authorization
error whose detail is the body's `error_description`, else its `error`,
else the raw body (the raw body too when the body does not parse). -/
theorem getAccessToken_failure_modes (d : DateOps) (st : St) :
    (st.file = none → getAccessToken d st = (.error .credentialsNotFound, st)) ∧
    (∀ creds r rest, st.file = some creds →
      (creds.access_token != "" && creds.token_expiry != ""
        && tokenStillValid d st.now creds.token_expiry) = false →
      st.refreshResponses = r :: rest → r.status ≠ 200 →
      (getAccessToken d st).1 =
        .error (.tokenRefreshFailed
          (match r.parsed with
           | none => r.raw
           | some p =>
             if p.error_description != "" then p.error_description
             else if p.error != "" then p.error
             else r.raw))) := by
  constructor
  · intro h
    unfold getAccessToken
    rw [h]
  · intro creds r rest hf hb hr hs
    rw [getAccessToken_refresh_branch d st creds hf hb,
      refreshToken_cons d creds st r rest hr]
    have hs' : (r.status != 200) = true := by simp [hs]
    simp only [hs', if_true]
    rfl

/-- Witness for C7: the absent-file case, and a 400 refresh response
whose body carries an `error_description`. -/
theorem getAccessToken_failure_modes_witness :
    getAccessToken dFar stNoFile = (.error .credentialsNotFound, stNoFile) ∧
    (getAccessToken dFar stBadRefresh).1 =
      .error (.tokenRefreshFailed "Token has been revoked.") := by
  constructor
  · exact (getAccessToken_failure_modes dFar stNoFile).1 rfl
  · exact (getAccessToken_failure_modes dFar stBadRefresh).2 credsEmptyTok
      refreshBad [] rfl (by decide) rfl (by decide)

/-- C10: a stored record with a missing or empty `access_token` or
`token_expiry` skips the local validity check: the refresh POST is made
unconditionally (whatever the clock or stored expiry), and on a 200
response the merged record is persisted and the fresh token returned. -/
theorem getAccessToken_missing_fields_refresh (d : DateOps) (st : St)
    (creds : OAuthCredentials) (hf : st.file = some creds)
    (h0 : creds.access_token = "" ∨ creds.token_expiry = "") :
    (getAccessToken d st).2.tokenRequests = st.tokenRequests ++ [tokenRequestOf creds] ∧
    (∀ r rest pb, st.refreshResponses = r :: rest → r.status = 200 → r.parsed = some pb →
      getAccessToken d st =
        (.ok pb.access_token,
         { st with
           file :=
             some
               { creds with
                 access_token := pb.access_token,
                 token_expiry := d.iso (st.now + pb.expires_in * 1000) },
           refreshResponses := rest,
           tokenRequests := st.tokenRequests ++ [tokenRequestOf creds] })) := by
  have hb : (creds.access_token != "" && creds.token_expiry != ""
      && tokenStillValid d st.now creds.token_expiry) = false := by
    rcases h0 with h | h <;> simp [h]
  constructor
  · exact getAccessToken_tokenRequests_after_refresh d st creds hf hb
  · intro r rest pb hr hs hp
    exact getAccessToken_refresh_ok d st creds r rest pb hf hb hr hs hp

/-- Witness for C10: an empty-token record with a far-future stored
expiry still refreshes and persists the merged record. -/
theorem getAccessToken_missing_fields_refresh_witness :
    (getAccessToken dFar stEmptyTok).2.tokenRequests =
      stEmptyTok.tokenRequests ++ [tokenRequestOf credsEmptyTok] ∧
    getAccessToken dFar stEmptyTok =
      (.ok "newtok",
       ⟨some ⟨"cid", "csec", "rtok", "newtok", "iso-3600000"⟩, 0, [], [],
        [⟨"cid", "csec", "rtok", "refresh_token"⟩], []⟩) := by
  refine
    ⟨(getAccessToken_missing_fields_refresh dFar stEmptyTok credsEmptyTok rfl (.inl rfl)).1,
      ?_⟩
  exact (getAccessToken_missing_fields_refresh dFar stEmptyTok credsEmptyTok rfl (.inl rfl)).2
    refreshOk [] ⟨"", "", "newtok", 3600⟩ rfl rfl rfl

/-! ## Calendar write client: create-call claims -/

lemma popCreate_cons (req : CreateRequest) (st : St) (r : CreateResponse)
    (rest : List CreateResponse) (h : st.createResponses = r :: rest) :
    popCreate req st =
      (.ok r,
       { st with
         createResponses := rest,
         createRequests := st.createRequests ++ [req] }) := by
  unfold popCreate
  rw [h]

/-- C8: a first create response whose status is neither 200 nor 401 is
surfaced as the API error carrying `parseApiError` of the body, with
exactly one create request issued — no retry — and the response consumed. -/
theorem createCalendarEvent_nonAuth_no_retry (d : DateOps) (p : EventProposal)
    (st st1 : St) (tok : String) (r : CreateResponse) (rest : List CreateResponse)
    (hg : getAccessToken d st = (.ok tok, st1))
    (hc : st1.createResponses = r :: rest)
    (h200 : r.status ≠ 200) (h401 : r.status ≠ 401) :
    createCalendarEvent d p st =
      (.error (.apiError r.status (parseApiError r)),
       { st1 with
         createResponses := rest,
         createRequests := st1.createRequests ++ [⟨tok, buildEvent p⟩] }) := by
  unfold createCalendarEvent
  rw [hg]
  dsimp only
  rw [popCreate_cons ⟨tok, buildEvent p⟩ st1 r rest hc]
  have h1 : (r.status == 401) = false := by simp [h401]
  have h2 : (r.status != 200) = true := by simp [h200]
  simp only [h1, h2, Bool.false_eq_true, if_false, if_true]

/-- Sample proposal used by the concrete witnesses. -/
def p0 : EventProposal :=
  ⟨"prop-1", "Coffee with Alice", "2026-02-27T14:00:00", "2026-02-27T14:30:00",
   ["alice@example.com"], "", ""⟩

/-- Sample non-auth create failure (quota). -/
def createBad : CreateResponse := ⟨403, "quota", some ⟨"Rate Limit Exceeded", "", "", ""⟩⟩

/-- State with a valid cached token and one 403 create response queued. -/
def stCreateBad : St := ⟨some credsValid, 0, [], [createBad], [], []⟩

/-- Witness for C8: a 403 create response is surfaced at once with a
single create request logged. -/
theorem createCalendarEvent_nonAuth_no_retry_witness :
    createCalendarEvent dFar p0 stCreateBad =
      (.error (.apiError 403 "Rate Limit Exceeded"),
       { stCreateBad with
         createResponses := [],
         createRequests := [⟨"tok0", buildEvent p0⟩] }) := by
  have h := createCalendarEvent_nonAuth_no_retry dFar p0 stCreateBad stCreateBad "tok0"
    createBad [] (by rfl) rfl (by decide) (by decide)
  simpa using h

/-- Sample 401 create response. -/
def resp401 : CreateResponse := ⟨401, "unauthorized", some ⟨"Invalid Credentials", "", "", ""⟩⟩

/-- State with a locally valid cached token and a create endpoint that
rejects it with 401 twice. -/
def stTwo401 : St := ⟨some credsValid, 0, [], [resp401, resp401], [], []⟩

/-- C1, evaluated at the failing input: the cached token still looks
valid locally (expiry far in the future) but the create endpoint rejects
it with 401 twice.  The 401 branch calls `getAccessToken`, whose local
validity check passes, so no token-endpoint refresh is ever POSTed
(`tokenRequests = []`) and the single retry is issued with the identical
rejected token — the claimed forced refresh never happens. -/
theorem createCalendarEvent_401_retry_without_refresh :
    (createCalendarEvent dFar p0 stTwo401).1 =
      .error (.apiError 401 "Invalid Credentials") ∧
    (createCalendarEvent dFar p0 stTwo401).2.tokenRequests = [] ∧
    (createCalendarEvent dFar p0 stTwo401).2.createRequests.map CreateRequest.authToken =
      ["tok0", "tok0"] :=
  ⟨rfl, rfl, rfl⟩

/-! ## Proposal store race (C2) -/

lemma lookupStatus_setStatus_self (s : StoreMap) (id : String) (v : PStatus) :
    lookupStatus (setStatus s id v) id = (lookupStatus s id).map (fun _ => v) := by
  induction s with
  | nil => rfl
  | cons kv rest ih =>
    obtain ⟨k, w⟩ := kv
    by_cases h : k = id
    · simp [setStatus, lookupStatus, h]
    · simp [setStatus, lookupStatus, h, ih]

lemma transition_fail (id : String) (t : PStatus) (s : StoreMap)
    (h : lookupStatus s id ≠ some .pending) :
    transition id .pending t s = (false, s) := by
  unfold transition
  cases hl : lookupStatus s id with
  | none => rfl
  | some c =>
    have hc : c ≠ .pending := by
      rintro rfl
      exact h hl
    simp [hc]

lemma raceOutOfPending_fail (id : String) (targets : List PStatus) (s : StoreMap)
    (h : lookupStatus s id ≠ some .pending) :
    raceOutOfPending id targets s = (0, s) := by
  induction targets with
  | nil => rfl
  | cons t rest ih =>
    simp [raceOutOfPending, transition_fail id t s h, ih]

/-- C2: when any number of callers race (in any linearization) to move
one id out of `pending` through the store's compare-and-set `transition`,
at most one call ever succeeds; and if the id starts `pending` and there
is at least one caller, exactly one succeeds — every other call returns a
conflict. -/
theorem transition_race_exactly_one (id : String) (targets : List PStatus) (s : StoreMap)
    (hT : ∀ t ∈ targets, t ≠ .pending) :
    (raceOutOfPending id targets s).1 ≤ 1 ∧
    (lookupStatus s id = some .pending → targets ≠ [] →
      (raceOutOfPending id targets s).1 = 1) := by
  cases targets with
  | nil =>
    exact ⟨by simp [raceOutOfPending], fun _ h => absurd rfl h⟩
  | cons t rest =>
    have ht : t ≠ .pending := hT t (List.mem_cons_self t rest)
    by_cases hp : lookupStatus s id = some .pending
    · have h1 : transition id .pending t s = (true, setStatus s id t) := by
        simp [transition, hp]
      have h2 : lookupStatus (setStatus s id t) id = some t := by
        rw [lookupStatus_setStatus_self, hp]
        rfl
      have h3 : lookupStatus (setStatus s id t) id ≠ some .pending := by
        rw [h2]
        intro hx
        exact ht (by injection hx)
      have h4 := raceOutOfPending_fail id rest (setStatus s id t) h3
      constructor
      · simp [raceOutOfPending, h1, h4]
      · intro _ _
        simp [raceOutOfPending, h1, h4]
    · have h1 := transition_fail id t s hp
      have h4 := raceOutOfPending_fail id rest s hp
      constructor
      · simp [raceOutOfPending, h1, h4]
      · intro hpend _
        exact absurd hpend hp

/-- Witness for C2: three callers race a pending proposal to `approved`,
`rejected` and `expired`; exactly one succeeds. -/
theorem transition_race_exactly_one_witness :
    (raceOutOfPending "p1" [.approved, .rejected, .expired] [("p1", .pending)]).1 ≤ 1 ∧
    (raceOutOfPending "p1" [.approved, .rejected, .expired] [("p1", .pending)]).1 = 1 :=
  have h := transition_race_exactly_one "p1" [.approved, .rejected, .expired]
    [("p1", .pending)] (by decide)
  ⟨h.1, h.2 rfl (by decide)⟩

/-! ## Approval channel boundary (C4, C9) -/

/-- C4 counterexample: the delivered keyboard's two payloads are
`event:approve:<id>` and `event:skip:<id>` — the adapter only accepts a
send whose keyboard carries exactly those — and the channel handler
parses the second button's payload to the tag `skip`, which lies outside
`{approve, reject}` yet is not ignored: it drives the rejected
transition. -/
theorem approval_tagSpace_counterexample :
    (sendEventProposal
        (some
          ⟨fun _ => "Fri 27 Feb", fun _ => "14:00",
           fun _ _ kb =>
             if kb.map InlineButton.data = ["event:approve:prop-1", "event:skip:prop-1"]
             then some 7 else none⟩)
        "tg:1" p0 ([("prop-1", PStatus.pending)] : StoreMap)).1 = some "7" ∧
    handleCallbackData "event:skip:prop-1" = some ("skip", "prop-1") ∧
    ¬("skip" = "approve" ∨ "skip" = "reject") ∧
    callbackTransition .pending false "skip" true true = some .rejected :=
  ⟨rfl, by decide, by decide, rfl⟩

/-- C4 (amended): the tag space at the approval channel boundary is
`{approve, skip}` — the two buttons encode those fixed tags with the
proposal id; inbound data without the `event:` namespace is dropped by
the channel; and a forwarded tag outside `{approve, skip}` matches
neither branch of the callback handler, so a fresh pending proposal's
state is unchanged, while `approve` and `skip` do drive transitions. -/
theorem approval_tagSpace (p : EventProposal) :
    (proposalKeyboard p).map InlineButton.data =
      ["event:approve:" ++ p.id, "event:skip:" ++ p.id] ∧
    (∀ d, strStartsWith d "event:" = false → handleCallbackData d = none) ∧
    (∀ a f c, a ≠ "approve" → a ≠ "skip" →
      callbackTransition .pending false a f c = none) ∧
    callbackTransition .pending false "approve" true true = some .approved ∧
    callbackTransition .pending false "skip" true true = some .rejected := by
  refine ⟨rfl, ?_, ?_, rfl, rfl⟩
  · intro d h
    simp [handleCallbackData, h]
  · intro a f c ha hs
    simp [callbackTransition, ha, hs]

/-- Witness for C4 (amended) at a concrete proposal, a non-`event:`
payload, and the tag `reject` (which the running system ignores). -/
theorem approval_tagSpace_witness :
    (proposalKeyboard p0).map InlineButton.data =
      ["event:approve:" ++ p0.id, "event:skip:" ++ p0.id] ∧
    handleCallbackData "hello" = none ∧
    callbackTransition .pending false "reject" true true = none :=
  have h := approval_tagSpace p0
  ⟨h.1, h.2.1 "hello" (by decide), h.2.2.1 "reject" true true (by decide) (by decide)⟩

/-- C9: `sendEventProposal` returns the delivered message id as the
handle on success; it returns no handle — its type admits no thrown
error — when the bot is not connected or the send fails; and in every
case the proposal store is returned unchanged (the source method performs
no store access), so a pending proposal stays pending. -/
theorem sendEventProposal_handle (api : TelegramApi) (jid : String) (p : EventProposal)
    (store : StoreMap) :
    sendEventProposal none jid p store = (none, store) ∧
    (api.sendMessage (stripTg jid) (proposalText api.fmtDate api.fmtTime p)
        (proposalKeyboard p) = none →
      sendEventProposal (some api) jid p store = (none, store)) ∧
    (∀ m, api.sendMessage (stripTg jid) (proposalText api.fmtDate api.fmtTime p)
        (proposalKeyboard p) = some m →
      sendEventProposal (some api) jid p store = (some (toString m), store)) := by
  refine ⟨rfl, ?_, ?_⟩
  · intro h
    simp [sendEventProposal, h]
  · intro m h
    simp [sendEventProposal, h]

/-- Bot API oracle whose send always fails. -/
def apiFail : TelegramApi := ⟨fun _ => "d", fun _ => "t", fun _ _ _ => none⟩

/-- Bot API oracle whose send always returns message id 7. -/
def apiOk7 : TelegramApi := ⟨fun _ => "d", fun _ => "t", fun _ _ _ => some 7⟩

/-- Witness for C9: disconnected bot, failing send and successful send,
each leaving a concrete pending store untouched. -/
theorem sendEventProposal_handle_witness :
    sendEventProposal none "tg:1" p0 ([("prop-1", PStatus.pending)] : StoreMap) =
      (none, [("prop-1", PStatus.pending)]) ∧
    sendEventProposal (some apiFail) "tg:1" p0 ([("prop-1", PStatus.pending)] : StoreMap) =
      (none, [("prop-1", PStatus.pending)]) ∧
    sendEventProposal (some apiOk7) "tg:1" p0 ([("prop-1", PStatus.pending)] : StoreMap) =
      (some "7", [("prop-1", PStatus.pending)]) := by
  refine ⟨(sendEventProposal_handle apiFail "tg:1" p0 _).1, ?_, ?_⟩
  · exact (sendEventProposal_handle apiFail "tg:1" p0 _).2.1 rfl
  · exact (sendEventProposal_handle apiOk7 "tg:1" p0 _).2.2 7 rfl

end Zorya
